import Mathlib

/-!
A shallow embedding of the `score.serve` forked-worker machinery
(`src/score/serve/_forked.py`) and of the asyncio lifecycle bridge
(`src/score/serve/worker/asyncio.py`), together with theorems settling the
specification's claims against it.

Conventions of the embedding:
* Python values travelling over the pipe live in a small universe `Val`.
* A Python exception is a `PyExc` (type name, message, traceback frames);
  fallible Python code is `Except PyExc _`.
* A coroutine is represented by the outcome it produces once the event loop
  has run it to completion (`Coro`).
* The wrapped object of the child process is an `Obj`: its `getattr` view.
* Stateful parent-side code (the `Gateway`) is explicit state passing over a
  `Gateway` record; externally visible pipe/OS operations are recorded as
  `Effect`s where a claim needs them.
-/

namespace Serve

/-- Python values appearing in pipe messages (a small, concrete universe). -/
inductive Val where
  | none
  | int (n : Int)
  | str (s : String)
  | boundMethod (owner : String) (name : String)
  deriving DecidableEq, Repr

/-- A Python exception: its type name, its message, and its traceback
(as the list of frame descriptions, innermost last). -/
structure PyExc where
  ty : String
  msg : String
  tb : List String
  deriving DecidableEq, Repr

/-- The triple `(type(exc), exc, traceback)` — the shape produced both by
`sys.exc_info()` and by `(type(exc), exc, exc.__traceback__)` in
`_handle_call`, and serialized over the pipe as a structured error. -/
structure ExcInfo where
  ty : String
  val : PyExc
  tb : List String
  deriving DecidableEq, Repr

/-- `sys.exc_info()` for a raised exception `e`. -/
def excInfoOf (e : PyExc) : ExcInfo := ⟨e.ty, e, e.tb⟩

/-- `exc.with_traceback(tb)`: the same exception with `tb` attached. -/
def withTraceback (e : PyExc) (tb : List String) : PyExc := { e with tb := tb }

/-- Keyword arguments of a call. -/
abbrev Kwargs := List (String × Val)

/-! ### Child Dispatcher (`_handle_call` in `_forked.py`) -/

/-- The eventual outcome of a coroutine once the loop has driven the task it
was scheduled as to completion: `future.result()` or `future.exception()`. -/
abbrev Coro := Except PyExc Val

/-- Result of invoking a member of the wrapped object: an already-final
value, or a coroutine (`asyncio.iscoroutine(result)` is true). -/
inductive CallRes where
  | value (v : Val)
  | coro (c : Coro)

/-- A member of the wrapped object as `getattr` sees it: a plain value, or a
bound method. `rep` is the value the member itself serializes to when it is
read (not called). -/
inductive Member where
  | plain (v : Val)
  | method (rep : Val) (f : List Val → Kwargs → Except PyExc CallRes)

/-- The value sent back when a member is read via `_get_attribute`. -/
def memberVal : Member → Val
  | .plain v => v
  | .method rep _ => rep

/-- `member(*args, **kwargs)`: calling a plain (non-callable) value raises
`TypeError`; calling a method runs it. -/
def callMember : Member → List Val → Kwargs → Except PyExc CallRes
  | .plain _, _, _ => .error ⟨"TypeError", "object is not callable", []⟩
  | .method _ f, args, kwargs => f args kwargs

/-- The wrapped object constructed in the child: its `getattr(obj, name)`
view, which may itself raise (e.g. `AttributeError` on a missing member). -/
structure Obj where
  getAttr : String → Except PyExc Member

/-- `args[i]`: `IndexError` when out of range. -/
def pyIndex (args : List Val) (i : Nat) : Except PyExc Val :=
  match args.get? i with
  | some v => .ok v
  | Option.none => .error ⟨"IndexError", "tuple index out of range", []⟩

/-- `getattr` requires its second argument to be a string. -/
def asAttrName : Val → Except PyExc String
  | .str s => .ok s
  | _ => .error ⟨"TypeError", "attribute name must be string", []⟩

/-- A command message `(id, function, args, kwargs)`, parent to child. -/
structure Command where
  id : Nat
  funcname : String
  args : List Val
  kwargs : Kwargs

/-- The third field of a response: a plain value on success, or the
serialized `(type, value, traceback)` structured error on failure. -/
inductive Payload where
  | val (v : Val)
  | err (e : ExcInfo)
  deriving DecidableEq, Repr

/-- A response message `(id, success, payload)`, child to parent. -/
structure Response where
  id : Nat
  success : Bool
  payload : Payload
  deriving DecidableEq, Repr

/-- The `done` callback defined inside `_handle_call`. Its free variable
`id` resolves, by Python's static scoping, to the enclosing invocation's
local `id` — the variable assigned from the received command (`id, funcname,
args, kwargs = command`) before the task is scheduled — so the closure cell
it reads when the task completes holds the originating command's id. It is
modelled here by passing that captured id explicitly. -/
def done (id : Nat) (c : Coro) : Response :=
  match c with
  | .error exc => ⟨id, false, .err ⟨exc.ty, exc, exc.tb⟩⟩
  | .ok v => ⟨id, true, .val v⟩

/-- The body of `_handle_call`'s `try:` block up to deciding what to send:
for `_get_attribute`, read `getattr(obj, args[0])`; otherwise look the
method up and invoke it. Every synchronous exception of lookup or
invocation surfaces as the `.error` case. -/
def handleBody (obj : Obj) (funcname : String) (args : List Val)
    (kwargs : Kwargs) : Except PyExc CallRes :=
  if funcname = "_get_attribute" then do
    let nameV ← pyIndex args 0
    let name ← asAttrName nameV
    let member ← obj.getAttr name
    .ok (.value (memberVal member))
  else do
    let callback ← obj.getAttr funcname
    callMember callback args kwargs

/-- What one `_handle_call` invocation does after reading a command: either
it sends a response at once, or it schedules the coroutine as a task with
the `done` callback attached (`loop.create_task(result).add_done_callback(done)`). -/
inductive HandleOutcome where
  | sent (r : Response)
  | scheduled (c : Coro) (k : Coro → Response)

/-- `_handle_call` on one received command: a final value or a synchronous
exception is answered immediately (`except:` sends `(id, False,
sys.exc_info())`); a coroutine is scheduled and answered by `done`. -/
def handleCall (obj : Obj) (cmd : Command) : HandleOutcome :=
  match handleBody obj cmd.funcname cmd.args cmd.kwargs with
  | .ok (.coro c) => .scheduled c (done cmd.id)
  | .ok (.value v) => .sent ⟨cmd.id, true, .val v⟩
  | .error e => .sent ⟨cmd.id, false, .err (excInfoOf e)⟩

/-- The one response the parent eventually receives for `cmd`: the immediate
one, or the `done` callback's response once the scheduled task completes. -/
def finalResponse (obj : Obj) (cmd : Command) : Response :=
  match handleCall obj cmd with
  | .sent r => r
  | .scheduled c k => k c

/-! ### Parent-side response bookkeeping (`Gateway._message_received`,
`Gateway._send_command`) -/

/-- The Gateway's `self.responses` dict: command id to `(success, result)`. -/
abbrev RespMap := Nat → Option (Bool × Payload)

/-- Dict assignment `m[i] = v`. -/
def updateResp (m : RespMap) (i : Nat) (v : Bool × Payload) : RespMap :=
  fun j => if j = i then some v else m j

/-- The 3-field branch of `_message_received`:
`self.responses[id] = (success, result)` (then `self.event.set()`). -/
def messageReceived (m : RespMap) (r : Response) : RespMap :=
  updateResp m r.id (r.success, r.payload)

/-- Receiving a sequence of response messages in pipe order. -/
def recvResponses (m : RespMap) (rs : List Response) : RespMap :=
  rs.foldl messageReceived m

/-- `raise result[1].with_traceback(result[2])` for a stored failure
payload. (A success-shaped payload under `success = False` would make
`result[1]` a `TypeError`; the child never produces that combination.) -/
def payloadReraise : Payload → PyExc
  | .err info => withTraceback info.val info.tb
  | .val _ => ⟨"TypeError", "exception information expected", []⟩

/-- The tail of `_send_command`'s wait loop for `command_id`: `none` while no
response with this id is stored (the waiter loops on the shared event);
once `command_id in self.responses`, return the payload on success, or
re-raise the reconstructed exception on failure. -/
def completeCommand (m : RespMap) (command_id : Nat) :
    Option (Except PyExc Payload) :=
  (m command_id).map fun sr =>
    if sr.1 then .ok sr.2 else .error (payloadReraise sr.2)

/-- What the parent-side waiter obtains for a task scheduled in the child
whose coroutine outcome was `c`. -/
def taskParentOutcome : Coro → Except PyExc Payload
  | .ok v => .ok (.val v)
  | .error e => .error e

/-! ### Gateway remote-surface resolution (`Gateway.__getattr__`) -/

/-- A member of the wrapped class as `getattr(self.cls, name)` sees it. -/
inductive ClsMember where
  | attr (v : Val)
  | func
  deriving DecidableEq, Repr

/-- The cached stub `__getattr__` builds for a callable member: behaviorally
it is determined by the method name it closes over. -/
structure Stub where
  name : String
  deriving DecidableEq, Repr

/-- A created-but-not-yet-awaited `_send_command(command, *args, **kwargs)`
coroutine (`_send_command` is a generator: its body, including the pipe
send, runs only when it is first driven). -/
structure Awaitable where
  command : String
  args : List Val
  kwargs : Kwargs
  deriving DecidableEq, Repr

/-- What an attribute access on a Gateway evaluates to. -/
inductive AttrVal where
  | stub (s : Stub)
  | await (a : Awaitable)
  deriving DecidableEq, Repr

/-- The Gateway's `self.callbacks` dict: event name to subscriber list
(callbacks stand in as numeric identifiers). -/
abbrev Registry := String → Option (List Nat)

/-- Parent-side Gateway state (the fields the claims touch). `stubs` is the
instance dict as populated by `setattr(self, name, callback)`. -/
structure Gateway where
  clsName : String
  cls : String → Option ClsMember
  childpid : Option Nat
  last_command_id : Nat
  responses : RespMap
  callbacks : Registry
  stubs : List (String × Stub)

/-- Lookup in the instance dict of cached stubs. -/
def lookupStub (l : List (String × Stub)) (name : String) : Option Stub :=
  (l.find? fun p => p.1 == name).map Prod.snd

/-- `setattr(self, name, callback)`. -/
def setStub (l : List (String × Stub)) (name : String) (s : Stub) :
    List (String × Stub) :=
  (name, s) :: l.filter fun p => p.1 != name

/-- `name.startswith('_')`. -/
def protectedName (name : String) : Bool :=
  match name.data with
  | [] => false
  | c :: _ => c == '_'

/-- `Gateway.__getattr__(name)`: protected names raise `AttributeError`; a
plain class attribute yields the (not yet driven) `_get_attribute`
awaitable; a callable member is turned into a stub which is cached on the
instance and returned. -/
def gatewayGetattr (g : Gateway) (name : String) :
    Except PyExc (AttrVal × Gateway) :=
  if protectedName name then
    .error ⟨"AttributeError",
      "Cannot access protected member " ++ g.clsName ++ "." ++ name, []⟩
  else
    match g.cls name with
    | Option.none =>
        .error ⟨"AttributeError",
          "type object " ++ g.clsName ++ " has no attribute " ++ name, []⟩
    | some (.attr _) => .ok (.await ⟨"_get_attribute", [Val.str name], []⟩, g)
    | some .func =>
        let callback : Stub := ⟨name⟩
        .ok (.stub callback, { g with stubs := setStub g.stubs name callback })

/-- Full attribute access on a Gateway: Python consults the instance dict
first and calls `__getattr__` only when normal lookup fails, so a cached
stub is returned as-is without re-resolution. -/
def gatewayAccess (g : Gateway) (name : String) :
    Except PyExc (AttrVal × Gateway) :=
  match lookupStub g.stubs name with
  | some s => .ok (.stub s, g)
  | Option.none => gatewayGetattr g name

/-- The Gateway after `__getattr__` has cached the stub for `name`. -/
def stubCached (g : Gateway) (name : String) : Gateway :=
  { g with stubs := setStub g.stubs name ⟨name⟩ }

/-- Invoking a stub builds `self._send_command(name, *args, **kwargs)`. -/
def stubCall (s : Stub) (args : List Val) (kwargs : Kwargs) : Awaitable :=
  ⟨s.name, args, kwargs⟩

/-- A command message on the wire. -/
structure WireCommand where
  id : Nat
  function : String
  args : List Val
  kwargs : Kwargs
  deriving DecidableEq, Repr

/-- The send phase of `_send_command` once the awaitable is first driven:
allocate the next strictly increasing command id and send
`(command_id, command, args, kwargs)`. -/
def issueCommand (g : Gateway) (a : Awaitable) : WireCommand × Gateway :=
  (⟨g.last_command_id + 1, a.command, a.args, a.kwargs⟩,
   { g with last_command_id := g.last_command_id + 1 })

/-! ### Subscription management (`Gateway.on` / `Gateway.off`) -/

/-- `Gateway.on(event, callback)`: create the list if absent, then append. -/
def regOn (r : Registry) (event : String) (cb : Nat) : Registry :=
  fun e => if e = event then some (((r event).getD []) ++ [cb]) else r e

/-- `list.remove(x)`: drop the first occurrence. -/
def removeFirst : List Nat → Nat → List Nat
  | [], _ => []
  | x :: xs, cb => if x = cb then xs else x :: removeFirst xs cb

/-- The registry `Gateway.off(event, callback)` leaves behind when the event
is present and the callback is in its list: remove the first occurrence and
drop the key entirely when the list became empty. -/
def offFun (r : Registry) (event : String) (l : List Nat) (cb : Nat) :
    Registry :=
  fun e =>
    if e = event then
      if removeFirst l cb = [] then Option.none else some (removeFirst l cb)
    else r e

/-- `Gateway.off(event, callback)`: `self.callbacks[event].remove(callback)`
(`KeyError` when the event is absent, `ValueError` when the callback is not
subscribed), then `del self.callbacks[event]` if the list became empty. -/
def regOff (r : Registry) (event : String) (cb : Nat) :
    Except PyExc Registry :=
  match r event with
  | Option.none => .error ⟨"KeyError", event, []⟩
  | some l =>
      if cb ∈ l then .ok (offFun r event l cb)
      else .error ⟨"ValueError", "list.remove(x): x not in list", []⟩

/-- The registry never maps an event to an empty subscriber list. -/
def hygienic (r : Registry) : Prop := ∀ e l, r e = some l → l ≠ []

/-! ### Gateway teardown (`Gateway.kill`) -/

/-- Externally visible operations the Gateway performs. -/
inductive Effect where
  | send (w : WireCommand)
  | waitpid (pid : Nat)
  | sigterm (pid : Nat)
  deriving DecidableEq, Repr

/-- How the embedded `yield from self._send_command('kill')` run goes:
the command is delivered and a success response arrives; or the command is
delivered and the awaited call re-raises a remote failure; or `pipe.send`
itself raises `BrokenPipeError` because the child is already gone. -/
inductive CmdRun where
  | completes (p : Payload)
  | remoteError (e : PyExc)
  | sendBroken
  deriving DecidableEq, Repr

/-- The `(id, "kill", (), {})` wire message. -/
def killCmd (cid : Nat) : WireCommand := ⟨cid, "kill", [], []⟩

/-- `Gateway.kill()`: a no-op when the child handle is already cleared;
otherwise send the `"kill"` command (`except BrokenPipeError: pass` — the
only suppression), then `os.waitpid(childpid, 0)` and clear the handle.
The command-id counter is bumped before the send, as in `_send_command`;
the wait-loop bookkeeping of `_send_command` is abstracted by `run`. -/
def gatewayKill (g : Gateway) (run : CmdRun) :
    Except PyExc (Gateway × List Effect) :=
  match g.childpid with
  | Option.none => .ok (g, [])
  | some pid =>
      let cid := g.last_command_id + 1
      let g1 := { g with last_command_id := cid }
      match run with
      | .completes _ =>
          .ok ({ g1 with childpid := Option.none },
               [.send (killCmd cid), .waitpid pid])
      | .remoteError e =>
          if e.ty = "BrokenPipeError" then
            .ok ({ g1 with childpid := Option.none },
                 [.send (killCmd cid), .waitpid pid])
          else .error e
      | .sendBroken =>
          .ok ({ g1 with childpid := Option.none }, [.waitpid pid])

/-! ### Launcher guard (`fork` in `_forked.py`) -/

/-- The environment `fork` inspects: `threading.active_count()`,
`multiprocessing.get_start_method(allow_none=True)`,
`multiprocessing.get_all_start_methods()`. -/
structure ForkEnv where
  active_count : Nat
  start_method : Option String
  all_start_methods : List String
  deriving DecidableEq, Repr

/-- What `fork` proceeds to do when it does not raise: `childpid = os.fork()`
runs unconditionally; `switchedToSpawn` records whether
`multiprocessing.set_start_method("spawn")` was executed first (which does
not affect the `os.fork()` call itself). -/
inductive ForkAction where
  | rawFork (switchedToSpawn : Bool)
  deriving DecidableEq, Repr

/-- The thread-guard portion of `fork`, up to and including the decision to
perform the raw `os.fork()`. -/
def forkGuard (env : ForkEnv) : Except PyExc ForkAction :=
  if 1 < env.active_count then
    match env.start_method with
    | Option.none =>
        match env.all_start_methods with
        | [] => .error ⟨"IndexError", "list index out of range", []⟩
        | default_start_method :: _ =>
            if default_start_method = "fork" then .ok (.rawFork true)
            else .ok (.rawFork false)
    | some sm =>
        if sm = "fork" then
          .error ⟨"RuntimeError",
            "Cannot fork using start_method \"fork\" when using threads", []⟩
        else .ok (.rawFork false)
  else .ok (.rawFork false)

/-! ### Lifecycle Bridge (`AsyncioWorker` in `worker/asyncio.py`) -/

/-- A task pending on the private loop. -/
abbrev TaskId := Nat

/-- Observable steps of `__stop_loop`'s drain, in order: block until a
pending task completes; `self.loop.stop()`; `event.set()` (which lets the
synchronous caller's `event.wait()` return). -/
inductive LoopEvent where
  | awaitTask (t : TaskId)
  | loopStop
  | eventSet
  deriving DecidableEq, Repr

/-- How a lifecycle hook behaves when called: it returns a plain value, it
raises synchronously, or it returns a coroutine whose awaited outcome is
`c`. -/
inductive HookBehavior where
  | returns (v : Val)
  | raises (e : PyExc)
  | returnsCoro (c : Except PyExc Val)

/-- The `__prepare`/`__start`/`__pause`/`__stop`/`__cleanup` wrapper
coroutine: call the hook; if the result is a coroutine, await it inline.
Its value is the outcome the scheduled future resolves to. -/
def wrapHook : HookBehavior → Except PyExc Val
  | .returns v => .ok v
  | .raises e => .error e
  | .returnsCoro c => c

/-- The recursive `stop` closure of `__stop_loop`: inspect the loop for
tasks still pending; if any remain, pop one and attach `stop` as its done
callback (modelled as blocking until that task has completed); once none
remain, stop the loop and set the event. `asyncio.Task.all_tasks` yields
the pending set in unspecified order, so the list is taken in pop order,
and a task completes exactly when the drain awaits it. -/
def stopLoopDrain : List TaskId → List LoopEvent
  | [] => [.loopStop, .eventSet]
  | t :: ts => .awaitTask t :: stopLoopDrain ts

/-- `__stop_loop(event)`: when the loop is no longer running, just set the
event; otherwise run the drain. -/
def stopLoop (loopRunning : Bool) (pending : List TaskId) : List LoopEvent :=
  if loopRunning then stopLoopDrain pending else [.eventSet]

/-- `AsyncioWorker.prepare()`: schedule `__prepare`, block on
`future.exception()`, re-raise it when there is one, else wait the event. -/
def prepareOp (hook : HookBehavior) : Except PyExc Unit :=
  match wrapHook hook with
  | .error e => .error e
  | .ok _ => .ok ()

/-- `AsyncioWorker.start()`: same discipline as `prepare`. -/
def startOp (hook : HookBehavior) : Except PyExc Unit :=
  match wrapHook hook with
  | .error e => .error e
  | .ok _ => .ok ()

/-- `AsyncioWorker.pause()`: same discipline as `prepare`. -/
def pauseOp (hook : HookBehavior) : Except PyExc Unit :=
  match wrapHook hook with
  | .error e => .error e
  | .ok _ => .ok ()

/-- `AsyncioWorker.stop()`: schedule `__stop` with the `stop_loop` done
callback attached; block on `future.exception()` and re-raise a hook
failure; otherwise `event.wait()` until the drain scheduled by `stop_loop`
sets the event. On success the value is the sequence of loop events the
caller's wait observes. `pending` is the set of tasks still pending at the
moment the `_stop` hook finished. -/
def stopOp (hook : HookBehavior) (loopRunning : Bool)
    (pending : List TaskId) : Except PyExc (List LoopEvent) :=
  match wrapHook hook with
  | .error e => .error e
  | .ok _ => .ok (stopLoop loopRunning pending)

/-- `AsyncioWorker.cleanup(exception)`: return at once when the loop is not
running; otherwise schedule `__cleanup` with the `stop_loop` done callback
and block on `event.wait()` alone — `future.exception()` is never
consulted, so the hook's outcome is computed but discarded. -/
def cleanupOp (loopRunning : Bool) (hook : HookBehavior)
    (pending : List TaskId) : Except PyExc (List LoopEvent) :=
  if loopRunning then
    let _outcome := wrapHook hook
    .ok (stopLoop true pending)
  else .ok []

/-! ### Concrete fixtures used by the witnesses -/

/-- An empty `self.responses` dict. -/
def emptyResponses : RespMap := fun _ => Option.none

/-- An empty `self.callbacks` dict. -/
def emptyCallbacks : Registry := fun _ => Option.none

/-- A wrapped object exposing one method `task` whose invocation returns a
coroutine resolving to `7`. -/
def demoObj : Obj :=
  ⟨fun name =>
    if name = "task" then
      .ok (.method (.boundMethod "Demo" "task")
        (fun _ _ => .ok (.coro (.ok (.int 7)))))
    else .error ⟨"AttributeError", name, []⟩⟩

/-- A wrapped object whose method `boom` raises `ValueError("boom")`. -/
def boomObj : Obj :=
  ⟨fun name =>
    if name = "boom" then
      .ok (.method (.boundMethod "Demo" "boom")
        (fun _ _ => .error ⟨"ValueError", "boom", ["dispatch frame"]⟩))
    else .error ⟨"AttributeError", name, []⟩⟩

/-- A wrapped object with no members at all: every lookup raises. -/
def bareObj : Obj := ⟨fun name => .error ⟨"AttributeError", name, []⟩⟩

/-- The command used by the exception-fidelity witness. -/
def boomCmd : Command := ⟨1, "boom", [], []⟩

/-- An unrelated response for another caller's id. -/
def otherResp : Response := ⟨2, true, .val (.int 9)⟩

/-- A parent-side Gateway over a class `Demo` with one callable member
`ping`. -/
def demoGateway : Gateway where
  clsName := "Demo"
  cls := fun n => if n = "ping" then some .func else Option.none
  childpid := some 5
  last_command_id := 0
  responses := emptyResponses
  callbacks := emptyCallbacks
  stubs := []

/-- `demoGateway` after the stub for `ping` has been cached. -/
def demoGatewayCached : Gateway := stubCached demoGateway "ping"

/-- A Gateway whose child process id is 42. -/
def killGateway : Gateway := { demoGateway with childpid := some 42 }

/-- An exception that is not a `BrokenPipeError`. -/
def valueExc : PyExc := ⟨"ValueError", "x", []⟩

/-- An exception raised by a lifecycle hook in the witnesses. -/
def hookExc : PyExc := ⟨"RuntimeError", "hook failed", ["hook frame"]⟩

/-- Reads the key's entry off the registry a successful `off` returned. -/
def offKeyState (x : Except PyExc Registry) (e : String) :
    Option (Option (List Nat)) :=
  x.toOption.map fun r => r e

/-! ## Theorems -/

/-- Responses whose ids all differ from `i` leave the entry at `i` alone. -/
theorem recvResponses_ne (m : RespMap) (rs : List Response) (i : Nat)
    (h : ∀ r ∈ rs, r.id ≠ i) : recvResponses m rs i = m i := by
  induction rs generalizing m with
  | nil => rfl
  | cons r rs ih =>
      have hr : r.id ≠ i := h r (by simp)
      have hrest : ∀ x ∈ rs, x.id ≠ i := fun x hx => h x (by simp [hx])
      show recvResponses (messageReceived m r) rs i = m i
      rw [ih _ hrest]
      simp [messageReceived, updateResp, Ne.symm hr]

/-- Reattaching an exception's own traceback is the identity. -/
theorem withTraceback_self (e : PyExc) : withTraceback e e.tb = e := rfl

/-- C1. When the Child Dispatcher's invocation of a command yields a
coroutine, the scheduled task's completion callback sends a response whose
id is the originating command's id (the closure captures `_handle_call`'s
local `id`, not an unrelated value), and therefore the parent-side waiter
for that id — even with arbitrary other responses of distinct ids stored
before and after it — obtains exactly the outcome of its own command's
task. -/
theorem async_response_carries_originating_id
    (obj : Obj) (cmd : Command) (c : Coro) (k : Coro → Response)
    (hS : handleCall obj cmd = .scheduled c k)
    (pre post : List Response)
    (_hpre : ∀ r ∈ pre, r.id ≠ cmd.id) (hpost : ∀ r ∈ post, r.id ≠ cmd.id)
    (m0 : RespMap) :
    (k c).id = cmd.id ∧
    completeCommand (recvResponses m0 (pre ++ k c :: post)) cmd.id
      = some (taskParentOutcome c) := by
  have hk : k = done cmd.id := by
    unfold handleCall at hS
    cases hbody : handleBody obj cmd.funcname cmd.args cmd.kwargs with
    | error e => rw [hbody] at hS; exact HandleOutcome.noConfusion hS
    | ok cr =>
        cases cr with
        | value v => rw [hbody] at hS; exact HandleOutcome.noConfusion hS
        | coro c' =>
            rw [hbody] at hS
            injection hS with h1 h2
            exact h2.symm
  subst hk
  have hid : (done cmd.id c).id = cmd.id := by cases c <;> rfl
  refine ⟨hid, ?_⟩
  have hsplit : recvResponses m0 (pre ++ done cmd.id c :: post)
      = recvResponses (messageReceived (recvResponses m0 pre) (done cmd.id c))
          post := by
    simp [recvResponses, List.foldl_append]
  have hstore : recvResponses m0 (pre ++ done cmd.id c :: post) cmd.id
      = some ((done cmd.id c).success, (done cmd.id c).payload) := by
    rw [hsplit, recvResponses_ne _ _ _ hpost]
    simp [messageReceived, updateResp, hid]
  rw [completeCommand, hstore]
  cases c with
  | ok v => rfl
  | error e => rfl

/-- Witness for C1 at a concrete command and an unrelated second caller. -/
theorem async_response_carries_originating_id_witness :
    (done 1 (Except.ok (Val.int 7))).id = 1 ∧
    completeCommand
        (recvResponses emptyResponses
          ([otherResp] ++ done 1 (Except.ok (Val.int 7)) :: [])) 1
      = some (taskParentOutcome (Except.ok (Val.int 7))) :=
  async_response_carries_originating_id demoObj ⟨1, "task", [], []⟩
    (Except.ok (Val.int 7)) (done 1) rfl [otherResp] []
    (by decide) (by decide) emptyResponses

/-- C3. A remote call whose child-side dispatch raises `exc` — whether
synchronously during lookup/invocation or from the awaited coroutine —
makes the parent-side waiter raise the very same exception: same type, same
message, with the original traceback reattached
(`withTraceback exc exc.tb = exc`), rather than returning a value or a
different error. -/
theorem remote_exception_fidelity
    (obj : Obj) (cmd : Command) (exc : PyExc) (m0 : RespMap)
    (h : handleBody obj cmd.funcname cmd.args cmd.kwargs = .error exc
       ∨ handleBody obj cmd.funcname cmd.args cmd.kwargs
           = .ok (.coro (.error exc))) :
    completeCommand (messageReceived m0 (finalResponse obj cmd)) cmd.id
      = some (.error (withTraceback exc exc.tb)) := by
  have hfr : finalResponse obj cmd = ⟨cmd.id, false, .err ⟨exc.ty, exc, exc.tb⟩⟩ := by
    cases h with
    | inl h => simp [finalResponse, handleCall, h, excInfoOf]
    | inr h => simp [finalResponse, handleCall, h, done]
  rw [hfr]
  simp [completeCommand, messageReceived, updateResp, payloadReraise]

/-- Witness for C3: `boom` raising `ValueError("boom")` in the child makes
the parent raise that same exception with its traceback. -/
theorem remote_exception_fidelity_witness :
    completeCommand
        (messageReceived emptyResponses (finalResponse boomObj boomCmd)) 1
      = some (.error (withTraceback ⟨"ValueError", "boom", ["dispatch frame"]⟩
          ["dispatch frame"])) :=
  remote_exception_fidelity boomObj boomCmd
    ⟨"ValueError", "boom", ["dispatch frame"]⟩ emptyResponses (Or.inl rfl)

/-- C6. Any exception the Child Dispatcher meets synchronously — during
attribute lookup or method invocation — is caught by `_handle_call`'s bare
`except:` and sent back as a failure response carrying `sys.exc_info()`;
`handleCall` is a total function, so no such exception escapes to crash the
child's loop. -/
theorem sync_exception_becomes_failure_response
    (obj : Obj) (cmd : Command) (exc : PyExc)
    (h : handleBody obj cmd.funcname cmd.args cmd.kwargs = .error exc) :
    handleCall obj cmd = .sent ⟨cmd.id, false, .err (excInfoOf exc)⟩ := by
  unfold handleCall
  rw [h]

/-- Witness for C6: looking up a missing member produces a failure response,
not an escaping exception. -/
theorem sync_exception_becomes_failure_response_witness :
    handleCall bareObj ⟨5, "nope", [], []⟩
      = .sent ⟨5, false, .err (excInfoOf ⟨"AttributeError", "nope", []⟩)⟩ :=
  sync_exception_becomes_failure_response bareObj ⟨5, "nope", [], []⟩
    ⟨"AttributeError", "nope", []⟩ rfl

/-- A freshly cached stub is found by instance-dict lookup. -/
theorem lookupStub_setStub (l : List (String × Stub)) (name : String)
    (s : Stub) : lookupStub (setStub l name s) name = some s := by
  simp [lookupStub, setStub]

/-- C7. Accessing a callable remote member caches a stub bound to the
member's name; a second access finds it in the instance dict and returns
the very same stub with the Gateway state unchanged (no re-resolution), and
invoking the stub obtained from either access builds the same
`_send_command` awaitable, which issues a command carrying the method's
name and the given arguments. -/
theorem stub_memoization
    (g : Gateway) (name : String)
    (hname : protectedName name = false)
    (hfunc : g.cls name = some .func)
    (h0 : lookupStub g.stubs name = Option.none) :
    gatewayAccess g name = .ok (.stub ⟨name⟩, stubCached g name) ∧
    gatewayAccess (stubCached g name) name
      = .ok (.stub ⟨name⟩, stubCached g name) ∧
    ∀ g₂ args kwargs,
      (issueCommand g₂ (stubCall ⟨name⟩ args kwargs)).1
        = ⟨g₂.last_command_id + 1, name, args, kwargs⟩ := by
  refine ⟨?_, ?_, fun g₂ args kwargs => rfl⟩
  · simp [gatewayAccess, h0, gatewayGetattr, hname, hfunc, stubCached]
  · simp [gatewayAccess, lookupStub_setStub, stubCached]

/-- Witness for C7 on a concrete Gateway over a class with method `ping`. -/
theorem stub_memoization_witness :
    gatewayAccess demoGateway "ping" = .ok (.stub ⟨"ping"⟩, demoGatewayCached) ∧
    gatewayAccess demoGatewayCached "ping"
      = .ok (.stub ⟨"ping"⟩, demoGatewayCached) ∧
    (issueCommand demoGatewayCached (stubCall ⟨"ping"⟩ [Val.int 3] [])).1
      = ⟨1, "ping", [Val.int 3], []⟩ := by
  obtain ⟨h1, h2, h3⟩ := stub_memoization demoGateway "ping" rfl rfl rfl
  exact ⟨h1, h2, h3 demoGatewayCached [Val.int 3] []⟩

/-- Presence and value of `regOff` on a present event with a subscribed
callback. -/
theorem regOff_some_mem (r : Registry) (event : String) (cb : Nat)
    (l : List Nat) (hre : r event = some l) (hmem : cb ∈ l) :
    regOff r event cb = .ok (offFun r event l cb) := by
  unfold regOff
  rw [hre]
  exact if_pos hmem

/-- C8. The subscriber registry never retains an empty callback list:
`on` always leaves a nonempty list behind, every successful `off` preserves
the no-empty-entries invariant, and `on(event, cb)` followed by
`off(event, cb)` on a previously absent event removes the event key
entirely while leaving every other key untouched. -/
theorem registry_never_retains_empty_entry
    (r : Registry) (hr : hygienic r) (event : String) (cb : Nat) :
    hygienic (regOn r event cb) ∧
    (∀ r', regOff r event cb = .ok r' → hygienic r') ∧
    (r event = Option.none →
      regOff (regOn r event cb) event cb
          = .ok (offFun (regOn r event cb) event [cb] cb) ∧
      offFun (regOn r event cb) event [cb] cb event = Option.none ∧
      ∀ e, e ≠ event → offFun (regOn r event cb) event [cb] cb e = r e) := by
  refine ⟨?_, ?_, ?_⟩
  · intro e l h
    by_cases he : e = event
    · subst he
      simp only [regOn, if_pos rfl] at h
      injection h with h
      intro hnil
      rw [← h] at hnil
      simp at hnil
    · simp only [regOn, if_neg he] at h
      exact hr e l h
  · intro r' hok e' l' h'
    cases hre : r event with
    | none =>
        unfold regOff at hok
        rw [hre] at hok
        exact Except.noConfusion hok
    | some l =>
        by_cases hmem : cb ∈ l
        · rw [regOff_some_mem r event cb l hre hmem] at hok
          injection hok with hok
          subst hok
          simp only [offFun] at h'
          by_cases he' : e' = event
          · rw [if_pos he'] at h'
            by_cases hnil : removeFirst l cb = []
            · rw [if_pos hnil] at h'
              exact Option.noConfusion h'
            · rw [if_neg hnil] at h'
              injection h' with h'
              rw [← h']
              exact hnil
          · rw [if_neg he'] at h'
            exact hr e' l' h'
        · unfold regOff at hok
          rw [hre] at hok
          simp [hmem] at hok
  · intro hnone
    have hOnEv : regOn r event cb event = some [cb] := by
      simp [regOn, hnone]
    refine ⟨regOff_some_mem (regOn r event cb) event cb [cb] hOnEv (by simp),
            ?_, ?_⟩
    · simp [offFun, removeFirst]
    · intro e he
      simp [offFun, removeFirst, he, regOn]

/-- Witness for C8: subscribing one callback to a fresh event and
unsubscribing it leaves the registry without that key. -/
theorem registry_never_retains_empty_entry_witness :
    offKeyState (regOff (regOn emptyCallbacks "tick" 1) "tick" 1) "tick"
      = some Option.none := by
  obtain ⟨-, -, h3⟩ := registry_never_retains_empty_entry emptyCallbacks
    (fun _ _ h => Option.noConfusion h) "tick" 1
  obtain ⟨hoff, hev, -⟩ := h3 rfl
  rw [offKeyState, hoff]
  simp [Except.toOption, hev]

/-- C9. `Gateway.kill()`: a `BrokenPipeError` while sending the `"kill"`
command is swallowed (and only that exception — any other failure of the
embedded call propagates), after which `kill` still blocks on
`os.waitpid` for the child to exit and clears the stored child handle; once
the handle is cleared, calling `kill` again is a no-op returning the
Gateway unchanged with no effects. -/
theorem kill_tolerates_broken_pipe_and_is_idempotent
    (g : Gateway) (pid : Nat) (hpid : g.childpid = some pid) :
    gatewayKill g .sendBroken
      = .ok ({ g with childpid := Option.none,
                      last_command_id := g.last_command_id + 1 },
             [Effect.waitpid pid]) ∧
    (∀ p, gatewayKill g (.completes p)
      = .ok ({ g with childpid := Option.none,
                      last_command_id := g.last_command_id + 1 },
             [Effect.send (killCmd (g.last_command_id + 1)),
              Effect.waitpid pid])) ∧
    (∀ e, e.ty ≠ "BrokenPipeError" →
      gatewayKill g (.remoteError e) = .error e) ∧
    (∀ run, gatewayKill { g with childpid := Option.none } run
      = .ok ({ g with childpid := Option.none }, [])) := by
  obtain ⟨cn, cls, cp, lc, resp, cbs, stubs⟩ := g
  change cp = some pid at hpid
  subst hpid
  refine ⟨rfl, fun p => rfl, fun e he => ?_, fun run => rfl⟩
  simp [gatewayKill, he]

/-- Witness for C9 on a Gateway whose child has pid 42. -/
theorem kill_tolerates_broken_pipe_and_is_idempotent_witness :
    gatewayKill killGateway .sendBroken
      = .ok ({ killGateway with childpid := Option.none,
                                last_command_id := 1 },
             [Effect.waitpid 42]) ∧
    gatewayKill killGateway (.completes (Payload.val Val.none))
      = .ok ({ killGateway with childpid := Option.none,
                                last_command_id := 1 },
             [Effect.send (killCmd 1), Effect.waitpid 42]) ∧
    gatewayKill killGateway (.remoteError valueExc) = .error valueExc ∧
    gatewayKill { killGateway with childpid := Option.none } .sendBroken
      = .ok ({ killGateway with childpid := Option.none }, []) := by
  obtain ⟨h1, h2, h3, h4⟩ :=
    kill_tolerates_broken_pipe_and_is_idempotent killGateway 42 rfl
  exact ⟨h1, h2 (Payload.val Val.none), h3 valueExc (by decide),
         h4 .sendBroken⟩

/-- C10. Accessing any attribute whose name begins with an underscore on a
Gateway (when it is not already set on the instance) raises
`AttributeError` from `__getattr__` at once: the error branch neither
builds a stub or an awaitable nor reaches `issueCommand`, so no command is
ever sent over the pipe and protected members of the wrapped class are
never remotely resolvable. -/
theorem protected_member_access_raises
    (g : Gateway) (name : String)
    (hname : protectedName name = true)
    (h0 : lookupStub g.stubs name = Option.none) :
    gatewayAccess g name
      = .error ⟨"AttributeError",
          "Cannot access protected member " ++ g.clsName ++ "." ++ name,
          []⟩ := by
  simp [gatewayAccess, h0, gatewayGetattr, hname]

/-- Witness for C10: `_secret` is rejected with an `AttributeError`. -/
theorem protected_member_access_raises_witness :
    gatewayAccess demoGateway "_secret"
      = .error ⟨"AttributeError",
          "Cannot access protected member "
            ++ demoGateway.clsName ++ "." ++ "_secret", []⟩ :=
  protected_member_access_raises demoGateway "_secret" rfl rfl

/-- C2 counterexample. With two live threads and the multiprocessing start
method already set to `"spawn"`, `fork` neither switches the
process-creation strategy nor raises: it silently proceeds to the raw
`os.fork()`, contradicting the claim that it never silently performs a raw
process duplication under multiple threads. -/
theorem fork_guard_raw_forks_under_threads :
    forkGuard ⟨2, some "spawn", ["fork", "spawn", "forkserver"]⟩
      = .ok (.rawFork false) := rfl

/-- C2 (amended). When the process has more than one live thread, `fork`
raises a `RuntimeError` before forking exactly when the configured start
method is `"fork"`; when the start method is unset it switches
multiprocessing to `"spawn"` only if the platform's first available start
method is `"fork"`; in every non-raising case — switched or not — it then
performs the raw `os.fork()`. -/
theorem fork_guard_characterization
    (env : ForkEnv) (h : 1 < env.active_count) :
    (env.start_method = some "fork" →
      forkGuard env = .error ⟨"RuntimeError",
        "Cannot fork using start_method \"fork\" when using threads", []⟩) ∧
    (∀ sm, env.start_method = some sm → sm ≠ "fork" →
      forkGuard env = .ok (.rawFork false)) ∧
    (∀ rest, env.start_method = Option.none →
      env.all_start_methods = "fork" :: rest →
      forkGuard env = .ok (.rawFork true)) ∧
    (∀ d rest, env.start_method = Option.none →
      env.all_start_methods = d :: rest → d ≠ "fork" →
      forkGuard env = .ok (.rawFork false)) := by
  obtain ⟨ac, sm, asm⟩ := env
  refine ⟨?_, ?_, ?_, ?_⟩
  · intro hsm
    change sm = some "fork" at hsm
    subst hsm
    simp [forkGuard, h]
  · intro sm' hsm hne
    change sm = some sm' at hsm
    subst hsm
    simp [forkGuard, h, hne]
  · intro rest hsm hasm
    change sm = Option.none at hsm
    change asm = "fork" :: rest at hasm
    subst hsm
    subst hasm
    simp [forkGuard, h]
  · intro d rest hsm hasm hne
    change sm = Option.none at hsm
    change asm = d :: rest at hasm
    subst hsm
    subst hasm
    simp [forkGuard, h, hne]

/-- Witness for the amended C2 at concrete environments, one per case. -/
theorem fork_guard_characterization_witness :
    forkGuard ⟨2, some "fork", ["fork", "spawn", "forkserver"]⟩
      = .error ⟨"RuntimeError",
          "Cannot fork using start_method \"fork\" when using threads", []⟩ ∧
    forkGuard ⟨2, some "forkserver", ["fork", "spawn", "forkserver"]⟩
      = .ok (.rawFork false) ∧
    forkGuard ⟨2, Option.none, ["fork", "spawn", "forkserver"]⟩
      = .ok (.rawFork true) ∧
    forkGuard ⟨2, Option.none, ["spawn", "fork"]⟩ = .ok (.rawFork false) := by
  refine ⟨(fork_guard_characterization ⟨2, some "fork",
            ["fork", "spawn", "forkserver"]⟩ (by decide)).1 rfl,
          (fork_guard_characterization ⟨2, some "forkserver",
            ["fork", "spawn", "forkserver"]⟩ (by decide)).2.1
            "forkserver" rfl (by decide),
          (fork_guard_characterization ⟨2, Option.none,
            ["fork", "spawn", "forkserver"]⟩ (by decide)).2.2.1
            ["spawn", "forkserver"] rfl rfl,
          (fork_guard_characterization ⟨2, Option.none,
            ["spawn", "fork"]⟩ (by decide)).2.2.2
            "spawn" ["fork"] rfl rfl (by decide)⟩

/-- C4 counterexample. A `_cleanup` hook that raises does not make
`cleanup` raise: `cleanup` never consults `future.exception()`, so it
returns normally after the drain, refuting the claim that each of the five
lifecycle operations re-raises its hook's exception. -/
theorem cleanup_swallows_hook_exception :
    cleanupOp true (.raises ⟨"ValueError", "boom", []⟩) []
      = .ok [LoopEvent.loopStop, LoopEvent.eventSet] := rfl

/-- C4 (amended). Four of the five synchronous lifecycle operations —
`prepare`, `start`, `pause`, `stop` — re-raise in the calling thread any
exception their hook raised, whether raised synchronously or from the
awaited coroutine; `cleanup` does not: it discards the hook's exception and
completes the shutdown drain regardless. -/
theorem lifecycle_ops_reraise_except_cleanup
    (e : PyExc) (hook : HookBehavior)
    (hhook : hook = .raises e ∨ hook = .returnsCoro (.error e))
    (pending : List TaskId) :
    prepareOp hook = .error e ∧
    startOp hook = .error e ∧
    pauseOp hook = .error e ∧
    stopOp hook true pending = .error e ∧
    cleanupOp true hook pending = .ok (stopLoopDrain pending) := by
  rcases hhook with h | h <;> subst h <;> exact ⟨rfl, rfl, rfl, rfl, rfl⟩

/-- Witness for the amended C4 with a concrete raising hook. -/
theorem lifecycle_ops_reraise_except_cleanup_witness :
    prepareOp (.raises hookExc) = .error hookExc ∧
    startOp (.raises hookExc) = .error hookExc ∧
    pauseOp (.raises hookExc) = .error hookExc ∧
    stopOp (.raises hookExc) true [3] = .error hookExc ∧
    cleanupOp true (.raises hookExc) [3] = .ok (stopLoopDrain [3]) :=
  lifecycle_ops_reraise_except_cleanup hookExc (.raises hookExc)
    (Or.inl rfl) [3]

/-- The drain awaits every pending task, then stops the loop, then sets the
event. -/
theorem stopLoopDrain_eq (ts : List TaskId) :
    stopLoopDrain ts
      = ts.map LoopEvent.awaitTask ++ [.loopStop, .eventSet] := by
  induction ts with
  | nil => rfl
  | cons t ts ih => simp [stopLoopDrain, ih]

/-- C5. When the `_stop` hook finishes without raising, `stop()` blocks on
a sequence of loop events in which every task pending at that moment is
awaited to completion first, the loop is commanded to stop only once none
remains pending, and only then is the event set that lets `stop()` return
to its caller. -/
theorem stop_drains_before_returning
    (hook : HookBehavior) (v : Val) (hok : wrapHook hook = .ok v)
    (pending : List TaskId) :
    stopOp hook true pending
      = .ok (pending.map LoopEvent.awaitTask ++ [.loopStop, .eventSet]) := by
  unfold stopOp
  rw [hok]
  simp [stopLoop, stopLoopDrain_eq]

/-- Witness for C5 with two pending tasks. -/
theorem stop_drains_before_returning_witness :
    stopOp (.returns Val.none) true [1, 2]
      = .ok [.awaitTask 1, .awaitTask 2, .loopStop, .eventSet] := by
  have h := stop_drains_before_returning (.returns Val.none) Val.none rfl [1, 2]
  simpa using h

end Serve
